import Mathlib

/-!
Verification of the pull-request controller (`internal/api/controller/pullreq/controller.go`)
of the harness repository: a shallow embedding of the controller's helper functions and of
the store primitives they rely on, followed by theorems checking the specified properties.

The store layer (`store.PullReqStore`, `store.PullReqActivityStore`) and the git RPC client
are not part of the sources; their behaviour is modelled from the specification where the
controller's behaviour depends on it (each such definition says so in its doc comment).
The controller functions themselves are transcribed directly from `controller.go`.
-/

/-- State of a pull request (`enum.PullReqState`): Open, Closed or Merged. -/
inductive PullReqState where
  | opened
  | closed
  | merged
deriving DecidableEq, Repr

/-- Kind of a pull-request activity (`enum.PullReqActivityKind`). -/
inductive PullReqActivityKind where
  | system
  | comment
  | codeComment
deriving DecidableEq, Repr

/-- A pull-request record (`types.PullReq`), restricted to the fields the controller
touches: identity, display number, the branch tuple, state and the activity sequence
counter. Integers of the Go code (`int64`) are modelled as `Int`. -/
structure PullReq where
  id : Int
  number : Int
  sourceRepoID : Int
  targetRepoID : Int
  sourceBranch : String
  targetBranch : String
  state : PullReqState
  activitySeq : Int
deriving DecidableEq, Repr

/-- A pull-request activity record (`types.PullReqActivity`): comment, reply or
system event. `deleted` models the nullable `Deleted` timestamp. -/
structure PullReqActivity where
  id : Int
  pullReqID : Int
  repoID : Int
  parentID : Option Int
  kind : PullReqActivityKind
  order : Int
  subOrder : Int
  replySeq : Int
  createdBy : Int
  deleted : Option Int
  payload : String
deriving DecidableEq, Repr

/-- The authenticated principal of a session (`auth.Session` / `types.Principal`). -/
structure Session where
  principalID : Int
deriving DecidableEq, Repr

/-- Error message used by `writeActivity` / `writeReplyActivity` when the sequence
bump fails. -/
def msgGetActivityNumberFailed : String := "failed to get pull request activity number"

/-- Error message used by `writeActivity` / `writeReplyActivity` when persisting the
activity row fails. -/
def msgCreateActivityFailed : String := "failed to create pull request activity"

/-- Error message of `verifyBranchExistence` for an empty branch name. -/
def msgEmptyBranch : String := "branch name can't be empty"

/-- Error message of `getCommentCheckEditAccess` for a non-positive comment ID. -/
def msgInvalidCommentID : String := "A valid comment ID must be provided."

/-- Error message of `getCommentCheckEditAccess` for a System-kind activity. -/
def msgSystemComment : String := "Can't update a comment created by the system."

/-- Error message of `getCommentCheckEditAccess` for a non-author caller. -/
def msgNotOwnComment : String := "Only own comments may be updated."

/-- Error message of `checkIfAlreadyExists` when an open pull request already exists. -/
def msgPRAlreadyExists : String := "a pull request for this target and source branch already exists"

/-- The errors produced by the controller: `badRequest` models `usererror.BadRequest`
(the user-facing Validation class), `badRequestPayload` the `usererror.BadRequest`
overload carrying a structured payload (here: the existing pull request's number),
`resourceNotFound` is `store.ErrResourceNotFound`, and `internalErr` models a wrapped
internal error (`fmt.Errorf`). -/
inductive UserError where
  | badRequest (msg : String)
  | badRequestPayload (msg : String) (number : Int)
  | resourceNotFound
  | internalErr (msg : String)
deriving DecidableEq, Repr

/-- Modelled from the spec: `PullReqStore.UpdateActivitySeq` (the store implementation is
not under the sources) "atomically reads the current stored ActivitySeq/version for `pr`,
increments it by one, writes it back conditioned on the version unchanged since read, and
returns the updated record". A successful call therefore returns the record with
`activitySeq` advanced by one; failure of the conditional write is modelled by the
`seqOk` flag of the callers. -/
def updateActivitySeq (pr : PullReq) : PullReq :=
  { pr with activitySeq := pr.activitySeq + 1 }

/-- Modelled from the spec: `PullReqActivityStore.UpdateReplySeq` (the store implementation
is not under the sources) follows the "same conditional-increment pattern as
`UpdateActivitySeq`, scoped to one parent activity's ReplySeq counter; returns the updated
parent". -/
def updateReplySeq (parent : PullReqActivity) : PullReqActivity :=
  { parent with replySeq := parent.replySeq + 1 }

/-- Transcription of `Controller.writeActivity` (controller.go:139-155): bump the pull
request's activity sequence, overwrite the caller's pull-request record with the updated
one, set the activity's Order to the post-increment sequence, then persist the row.
The outcomes of the two store calls are the inputs `seqOk` (conditional increment) and
`createOk` (row insert). The result carries the pull-request record and activity record
as the caller observes them afterwards, plus the returned error. -/
def writeActivity (seqOk createOk : Bool) (pr : PullReq) (act : PullReqActivity) :
    PullReq × PullReqActivity × Option UserError :=
  if seqOk then
    let prUpd := updateActivitySeq pr
    let act1 := { act with order := prUpd.activitySeq }
    if createOk then
      (prUpd, act1, none)
    else
      (prUpd, act1, some (UserError.internalErr msgCreateActivityFailed))
  else
    (pr, act, some (UserError.internalErr msgGetActivityNumberFailed))

/-- Transcription of `Controller.writeReplyActivity` (controller.go:160-177): bump the
parent activity's reply sequence, overwrite the caller's parent record with the updated
one, set the reply's Order to the parent's Order and its SubOrder to the post-increment
reply sequence, then persist the row. -/
def writeReplyActivity (seqOk createOk : Bool) (parent act : PullReqActivity) :
    PullReqActivity × PullReqActivity × Option UserError :=
  if seqOk then
    let parentUpd := updateReplySeq parent
    let act1 := { act with order := parentUpd.order, subOrder := parentUpd.replySeq }
    if createOk then
      (parentUpd, act1, none)
    else
      (parentUpd, act1, some (UserError.internalErr msgCreateActivityFailed))
  else
    (parent, act, some (UserError.internalErr msgGetActivityNumberFailed))

/-- A sequence of `writeActivity` calls on the same pull request, each one having won its
conditional increment (the order in the list is the order in which the increments
succeeded); the `Bool` of each call tells whether the row insert succeeded. Returns the
final pull-request record and the list of Order values assigned by the calls. -/
def runWriteActivities (pr : PullReq) :
    List (PullReqActivity × Bool) → PullReq × List Int
  | [] => (pr, [])
  | (act, createOk) :: rest =>
    let r := writeActivity true createOk pr act
    let next := runWriteActivities r.1 rest
    (next.1, r.2.1.order :: next.2)

/-- A sequence of `writeReplyActivity` calls under the same parent activity, each one
having won its conditional increment. Returns the final parent record and the list of
(Order, SubOrder) pairs assigned to the replies. -/
def runWriteReplies (parent : PullReqActivity) :
    List (PullReqActivity × Bool) → PullReqActivity × List (Int × Int)
  | [] => (parent, [])
  | (act, createOk) :: rest =>
    let r := writeReplyActivity true createOk parent act
    let next := runWriteReplies r.1 rest
    (next.1, (r.2.1.order, r.2.1.subOrder) :: next.2)

/-- On a successful sequence bump, `writeActivity` returns the post-increment pull-request
record and the activity stamped with the post-increment sequence, whatever the outcome of
the row insert. -/
lemma writeActivity_seqOk (createOk : Bool) (pr : PullReq) (act : PullReqActivity) :
    writeActivity true createOk pr act =
      (updateActivitySeq pr, { act with order := pr.activitySeq + 1 },
        if createOk then none else some (UserError.internalErr msgCreateActivityFailed)) := by
  cases createOk <;> rfl

/-- On a successful sequence bump, `writeReplyActivity` returns the post-increment parent
record and the reply stamped with the parent's Order and the post-increment reply
sequence, whatever the outcome of the row insert. -/
lemma writeReplyActivity_seqOk (createOk : Bool) (parent act : PullReqActivity) :
    writeReplyActivity true createOk parent act =
      (updateReplySeq parent,
        { act with order := parent.order, subOrder := parent.replySeq + 1 },
        if createOk then none else some (UserError.internalErr msgCreateActivityFailed)) := by
  cases createOk <;> rfl

/-- Unfolding equation for a burst of `writeActivity` calls. -/
lemma runWriteActivities_cons (pr : PullReq) (act : PullReqActivity) (ok : Bool)
    (rest : List (PullReqActivity × Bool)) :
    runWriteActivities pr ((act, ok) :: rest) =
      ((runWriteActivities (updateActivitySeq pr) rest).1,
        (pr.activitySeq + 1) :: (runWriteActivities (updateActivitySeq pr) rest).2) := by
  cases ok <;> rfl

/-- Unfolding equation for a burst of `writeReplyActivity` calls. -/
lemma runWriteReplies_cons (parent : PullReqActivity) (act : PullReqActivity) (ok : Bool)
    (rest : List (PullReqActivity × Bool)) :
    runWriteReplies parent ((act, ok) :: rest) =
      ((runWriteReplies (updateReplySeq parent) rest).1,
        (parent.order, parent.replySeq + 1) :: (runWriteReplies (updateReplySeq parent) rest).2) := by
  cases ok <;> rfl

/-- Invariant of a burst of `writeActivity` calls: the counter advances by the number of
calls, every assigned Order exceeds the initial counter value, and the assigned Orders are
pairwise strictly increasing in assignment order. -/
lemma runWriteActivities_spec (calls : List (PullReqActivity × Bool)) (pr : PullReq) :
    (runWriteActivities pr calls).1.activitySeq = pr.activitySeq + calls.length ∧
    (∀ o ∈ (runWriteActivities pr calls).2, pr.activitySeq < o) ∧
    List.Pairwise (· < ·) (runWriteActivities pr calls).2 := by
  induction calls generalizing pr with
  | nil => simp [runWriteActivities]
  | cons c rest ih =>
    obtain ⟨act, ok⟩ := c
    obtain ⟨ih1, ih2, ih3⟩ := ih (updateActivitySeq pr)
    rw [runWriteActivities_cons]
    refine ⟨?_, ?_, ?_⟩
    · rw [ih1]
      simp only [updateActivitySeq, List.length_cons]
      omega
    · intro o ho
      rcases List.mem_cons.mp ho with h | h
      · omega
      · have := ih2 o h
        simp only [updateActivitySeq] at this
        omega
    · refine List.pairwise_cons.mpr ⟨?_, ih3⟩
      intro o ho
      have := ih2 o ho
      simp only [updateActivitySeq] at this
      omega

/-- Invariant of a burst of `writeReplyActivity` calls: the parent's Order is untouched,
its ReplySeq advances by the number of calls, every reply carries the parent's Order,
every assigned SubOrder exceeds the initial ReplySeq, and the SubOrders are pairwise
strictly increasing in assignment order. -/
lemma runWriteReplies_spec (calls : List (PullReqActivity × Bool)) (parent : PullReqActivity) :
    (runWriteReplies parent calls).1.order = parent.order ∧
    (runWriteReplies parent calls).1.replySeq = parent.replySeq + calls.length ∧
    (∀ p ∈ (runWriteReplies parent calls).2, p.1 = parent.order ∧ parent.replySeq < p.2) ∧
    List.Pairwise (· < ·) ((runWriteReplies parent calls).2.map Prod.snd) := by
  induction calls generalizing parent with
  | nil => simp [runWriteReplies]
  | cons c rest ih =>
    obtain ⟨act, ok⟩ := c
    obtain ⟨ih1, ih2, ih3, ih4⟩ := ih (updateReplySeq parent)
    rw [runWriteReplies_cons]
    refine ⟨?_, ?_, ?_, ?_⟩
    · simpa only [updateReplySeq] using ih1
    · rw [ih2]
      simp only [updateReplySeq, List.length_cons]
      omega
    · intro p hp
      rcases List.mem_cons.mp hp with h | h
      · subst h
        exact ⟨rfl, by omega⟩
      · obtain ⟨h1, h2⟩ := ih3 p h
        simp only [updateReplySeq] at h1 h2
        exact ⟨h1, by omega⟩
    · rw [List.map_cons]
      refine List.pairwise_cons.mpr ⟨?_, ih4⟩
      intro so hso
      obtain ⟨p, hp, hps⟩ := List.mem_map.mp hso
      have := (ih3 p hp).2
      simp only [updateReplySeq] at this
      omega

/-- Outcome of the git RPC call `GetRef` (the `gitrpc` client is an external collaborator):
the ref exists, it does not exist (`gitrpc.ErrNotFound`), or the call fails for another
reason (a transient failure carrying some message). -/
inductive GetRefResult where
  | ok
  | notFound
  | failure (msg : String)
deriving DecidableEq, Repr

/-- Error message of `getCommentCheckEditAccess` when the store lookup fails. -/
def msgFindCommentFailed : String := "failed to find comment by ID"

/-- Message of `verifyBranchExistence` for a branch that does not exist
(controller.go:78-79). -/
def msgBranchNotFound (branch repoUID : String) : String :=
  "branch " ++ branch ++ " does not exist in the repository " ++ repoUID

/-- Message of `verifyBranchExistence` for a failed existence check
(controller.go:82-84). -/
def msgBranchCheckFailed (branch repoUID : String) : String :=
  "failed to check existence of the branch " ++ branch ++ " in the repository " ++ repoUID

/-- Transcription of `Controller.verifyBranchExistence` (controller.go:65-88). The git
client is modelled as an oracle `getRef` giving the outcome of its n-th call; the second
component of the result is the number of `GetRef` calls the function performed, so that
call-count properties (resolver not consulted, no retry) are part of the embedding. -/
def verifyBranchExistence (getRef : Nat → GetRefResult) (repoUID branch : String) :
    Option UserError × Nat :=
  if branch = "" then
    (some (UserError.badRequest msgEmptyBranch), 0)
  else
    match getRef 0 with
    | GetRefResult.notFound =>
      (some (UserError.badRequest (msgBranchNotFound branch repoUID)), 1)
    | GetRefResult.failure _ =>
      (some (UserError.internalErr (msgBranchCheckFailed branch repoUID)), 1)
    | GetRefResult.ok => (none, 1)

/-- Transcription of `Controller.getCommentCheckEditAccess` (controller.go:109-134).
`findResult` is the outcome of the store lookup `activityStore.Find(ctx, commentID)`
(`none` models both a store error and a nil comment, exactly as the Go code treats them). -/
def getCommentCheckEditAccess (session : Session) (pr : PullReq) (commentID : Int)
    (findResult : Option PullReqActivity) : Except UserError PullReqActivity :=
  if commentID ≤ 0 then
    Except.error (UserError.badRequest msgInvalidCommentID)
  else
    match findResult with
    | none => Except.error (UserError.internalErr msgFindCommentFailed)
    | some comment =>
      if comment.deleted.isSome ∨ comment.repoID ≠ pr.targetRepoID ∨ comment.pullReqID ≠ pr.id then
        Except.error UserError.resourceNotFound
      else if comment.kind = PullReqActivityKind.system then
        Except.error (UserError.badRequest msgSystemComment)
      else if comment.createdBy ≠ session.principalID then
        Except.error (UserError.badRequest msgNotOwnComment)
      else
        Except.ok comment

/-- Modelled from the spec: the EditComment use case around `getCommentCheckEditAccess`
is not under the sources; per the spec it runs the access check and then updates the
payload in place ("update payload in place — Order/SubOrder are immutable after
creation"). The activity store is a list of rows; the lookup finds the row with the given
ID; when the access check fails, the error is returned and no write occurs. -/
def editComment (session : Session) (pr : PullReq) (commentID : Int) (newPayload : String)
    (db : List PullReqActivity) : List PullReqActivity × Option UserError :=
  match getCommentCheckEditAccess session pr commentID
      (db.find? (fun a => a.id == commentID)) with
  | Except.error e => (db, some e)
  | Except.ok _ =>
    (db.map (fun a => if a.id = commentID then { a with payload := newPayload } else a), none)

/-- The branch-tuple filter of `checkIfAlreadyExists`: target repository, the filter's
source repository, source branch and target branch (controller.go:182-186). -/
def sameBranchTuple (targetRepoID sourceRepoID : Int) (sourceBranch targetBranch : String)
    (p : PullReq) : Bool :=
  p.targetRepoID == targetRepoID && p.sourceRepoID == sourceRepoID &&
    p.sourceBranch == sourceBranch && p.targetBranch == targetBranch

/-- Modelled from the spec: `PullReqStore.List` (the store implementation is not under the
sources) is a read-only query "filtered by state, branches, sort/order, pagination". The
store is a list of pull-request records; the query keeps the records matching the branch
tuple whose state is among the requested states, sorts them by the requested key — for
`checkIfAlreadyExists` always by Number, ascending — and returns the first `size` records.
The store read is assumed to succeed. -/
def listPullReqs (db : List PullReq) (targetRepoID sourceRepoID : Int)
    (sourceBranch targetBranch : String) (states : List PullReqState) (size : Nat) :
    List PullReq :=
  ((db.filter (fun p =>
      sameBranchTuple targetRepoID sourceRepoID sourceBranch targetBranch p
        && states.contains p.state)).mergeSort
    (fun a b => decide (a.number ≤ b.number))).take size

/-- Transcription of `Controller.checkIfAlreadyExists` (controller.go:179-206): list the
pull requests matching the branch tuple that are in the Open state, sorted by Number
ascending, page size 1; if any exists, reject with a user-facing error whose payload
carries the existing request's Number. -/
def checkIfAlreadyExists (db : List PullReq) (targetRepoID sourceRepoID : Int)
    (targetBranch sourceBranch : String) : Option UserError :=
  match listPullReqs db targetRepoID sourceRepoID sourceBranch targetBranch
      [PullReqState.opened] 1 with
  | [] => none
  | e :: _ => some (UserError.badRequestPayload msgPRAlreadyExists e.number)

/-- A sample pull request used to instantiate theorems with hypotheses. -/
def samplePR : PullReq :=
  { id := 1, number := 1, sourceRepoID := 2, targetRepoID := 3, sourceBranch := "feature",
    targetBranch := "main", state := PullReqState.opened, activitySeq := 0 }

/-- A sample top-level comment activity on `samplePR`, authored by principal 7. -/
def sampleComment : PullReqActivity :=
  { id := 10, pullReqID := 1, repoID := 3, parentID := none,
    kind := PullReqActivityKind.comment, order := 0, subOrder := 0, replySeq := 0,
    createdBy := 7, deleted := none, payload := "hello" }

/-- A sample parent activity (Order 5, ReplySeq 0) used for reply sequencing. -/
def sampleParent : PullReqActivity :=
  { sampleComment with id := 11, order := 5 }

/-- A first sample reply under `sampleParent`. -/
def sampleReply : PullReqActivity :=
  { sampleComment with id := 12, parentID := some 11 }

/-- A second sample reply under `sampleParent`. -/
def sampleReply2 : PullReqActivity :=
  { sampleComment with id := 13, parentID := some 11 }

/-- A sample burst of two reply writes, the second one with a failing row insert. -/
def sampleCalls : List (PullReqActivity × Bool) :=
  [(sampleReply, true), (sampleReply2, false)]

/-- Claim C1: over any burst of `writeActivity` calls on one pull request, taken in the order
the conditional increments succeeded, the assigned Order values are pairwise strictly
increasing in assignment order, pairwise distinct, and every assigned Order exceeds the
pull request's ActivitySeq from before the burst; moreover each single call stamps the
activity with exactly the ActivitySeq obtained right after the atomic increment. -/
theorem writeActivity_orders_unique_strictly_increasing (pr : PullReq)
    (calls : List (PullReqActivity × Bool)) :
    List.Pairwise (· < ·) (runWriteActivities pr calls).2 ∧
    (runWriteActivities pr calls).2.Nodup ∧
    (∀ o ∈ (runWriteActivities pr calls).2, pr.activitySeq < o) ∧
    (∀ ok act, (writeActivity true ok pr act).2.1.order = (updateActivitySeq pr).activitySeq) := by
  obtain ⟨h1, h2, h3⟩ := runWriteActivities_spec calls pr
  refine ⟨h3, h3.imp (fun h => ne_of_lt h), h2, ?_⟩
  intro ok act
  cases ok <;> rfl

/-- Claim C2: writeActivity follows the two-phase protocol. If the sequence bump fails,
nothing else happens and the bump error is returned. After a successful bump the activity
carries the post-bump sequence as its Order; if the row write then fails, the row-write
error is returned while the pull-request record keeps the advanced counter (no rollback),
and the consumed number is never reused: any subsequent call assigns a strictly larger
Order, leaving a gap. -/
theorem writeActivity_two_phase (pr : PullReq) (act : PullReqActivity) :
    writeActivity false true pr act
        = (pr, act, some (UserError.internalErr msgGetActivityNumberFailed)) ∧
    (writeActivity true false pr act).1.activitySeq = pr.activitySeq + 1 ∧
    (writeActivity true false pr act).2.1.order = pr.activitySeq + 1 ∧
    (writeActivity true false pr act).2.2 = some (UserError.internalErr msgCreateActivityFailed) ∧
    (∀ ok, (writeActivity true ok pr act).2.1.order = (writeActivity true ok pr act).1.activitySeq) ∧
    (∀ ok2 act2, (writeActivity true ok2 (writeActivity true false pr act).1 act2).2.1.order
        = pr.activitySeq + 2) := by
  refine ⟨rfl, rfl, rfl, rfl, ?_, ?_⟩
  · intro ok
    cases ok <;> rfl
  · intro ok2 act2
    cases ok2 <;> (simp [writeActivity, updateActivitySeq]; omega)

/-- Claim C3: in a burst of `writeReplyActivity` calls under one parent whose ReplySeq starts
at 0, every reply is stamped with the parent's Order as its Order, the assigned SubOrder
values are pairwise strictly increasing in assignment order, all of them are at least 1,
and the first assigned SubOrder is exactly 1. -/
theorem writeReplyActivity_suborders (parent : PullReqActivity)
    (calls : List (PullReqActivity × Bool)) (h : parent.replySeq = 0) :
    (∀ p ∈ (runWriteReplies parent calls).2, p.1 = parent.order) ∧
    List.Pairwise (· < ·) ((runWriteReplies parent calls).2.map Prod.snd) ∧
    (∀ p ∈ (runWriteReplies parent calls).2, 1 ≤ p.2) ∧
    (∀ act ok rest, calls = (act, ok) :: rest →
      ((runWriteReplies parent calls).2.map Prod.snd).head? = some 1) := by
  obtain ⟨h1, h2, h3, h4⟩ := runWriteReplies_spec calls parent
  refine ⟨fun p hp => (h3 p hp).1, h4, ?_, ?_⟩
  · intro p hp
    have := (h3 p hp).2
    omega
  · intro act ok rest hc
    subst hc
    rw [runWriteReplies_cons]
    simp [h]

/-- Witness for C3: the reply-sequencing theorem applied to a concrete parent with
ReplySeq 0 and a concrete burst of two replies. -/
theorem writeReplyActivity_suborders_witness :
    sampleParent.replySeq = 0 ∧
    ((∀ p ∈ (runWriteReplies sampleParent sampleCalls).2, p.1 = sampleParent.order) ∧
      List.Pairwise (· < ·) ((runWriteReplies sampleParent sampleCalls).2.map Prod.snd) ∧
      (∀ p ∈ (runWriteReplies sampleParent sampleCalls).2, 1 ≤ p.2) ∧
      (∀ act ok rest, sampleCalls = (act, ok) :: rest →
        ((runWriteReplies sampleParent sampleCalls).2.map Prod.snd).head? = some 1)) :=
  ⟨rfl, writeReplyActivity_suborders sampleParent sampleCalls rfl⟩

/-- Claim C9: frame of the two write helpers after a successful sequence bump. The caller's
pull-request (resp. parent) record is replaced by the post-increment store record whether
or not the row write succeeds — so after a bump-success/write-failure call it already
carries the advanced counter — and the activity record is modified only in its Order
field (Order and SubOrder for replies), every other field being kept verbatim. -/
theorem writeHelpers_frame (createOk : Bool) (pr : PullReq) (parent act : PullReqActivity) :
    (writeActivity true createOk pr act).1 = updateActivitySeq pr ∧
    (writeActivity true false pr act).1.activitySeq = pr.activitySeq + 1 ∧
    (writeActivity true createOk pr act).2.1
        = { act with order := (updateActivitySeq pr).activitySeq } ∧
    (writeReplyActivity true createOk parent act).1 = updateReplySeq parent ∧
    (writeReplyActivity true false parent act).1.replySeq = parent.replySeq + 1 ∧
    (writeReplyActivity true createOk parent act).2.1
        = { act with order := parent.order, subOrder := (updateReplySeq parent).replySeq } := by
  cases createOk <;> exact ⟨rfl, rfl, rfl, rfl, rfl, rfl⟩

/-- A sample repository UID for branch-existence checks. -/
def sampleRepoUID : String := "repo"

/-- A sample non-empty branch name. -/
def sampleBranch : String := "dev"

/-- The session of the author of `sampleComment` (principal 7). -/
def sampleSession : Session := { principalID := 7 }

/-- A session of a different principal (principal 8). -/
def sampleOtherSession : Session := { principalID := 8 }

/-- A System-kind activity on `samplePR`, authored by principal 7. -/
def sampleSystemActivity : PullReqActivity :=
  { sampleComment with id := 14, kind := PullReqActivityKind.system }

/-- A soft-deleted System-kind activity on `samplePR`. -/
def sampleDeletedActivity : PullReqActivity :=
  { sampleComment with kind := PullReqActivityKind.system, deleted := some 99 }

/-- A sample activity store holding just `sampleComment`. -/
def sampleDB : List PullReqActivity := [sampleComment]

/-- A sample replacement payload for comment edits. -/
def samplePayload : String := "edited"

/-- Claim C5: verifyBranchExistence rejects an empty branch name with a Validation error
before ever consulting the resolver (zero resolver calls); a NotFound resolver result is
mapped to the user-facing Validation error carrying the branch-does-not-exist message;
any other resolver failure is propagated as a distinct internal error; and the resolver
is never called more than once, so no retry happens inside the engine. -/
theorem verifyBranchExistence_error_mapping (getRef : Nat → GetRefResult)
    (repoUID branch : String) :
    (branch = "" →
      verifyBranchExistence getRef repoUID branch
        = (some (UserError.badRequest msgEmptyBranch), 0)) ∧
    (branch ≠ "" → getRef 0 = GetRefResult.notFound →
      verifyBranchExistence getRef repoUID branch
        = (some (UserError.badRequest (msgBranchNotFound branch repoUID)), 1)) ∧
    (∀ m, branch ≠ "" → getRef 0 = GetRefResult.failure m →
      verifyBranchExistence getRef repoUID branch
        = (some (UserError.internalErr (msgBranchCheckFailed branch repoUID)), 1)) ∧
    (verifyBranchExistence getRef repoUID branch).2 ≤ 1 := by
  refine ⟨?_, ?_, ?_, ?_⟩
  · intro h
    simp [verifyBranchExistence, h]
  · intro h hget
    simp [verifyBranchExistence, h, hget]
  · intro m h hget
    simp [verifyBranchExistence, h, hget]
  · by_cases h : branch = ""
    · simp [verifyBranchExistence, h]
    · simp only [verifyBranchExistence, if_neg h]
      cases hget : getRef 0 <;> simp

/-- Witness for C5: the mapping theorem applied to a resolver answering NotFound on a
concrete non-empty branch, and to an empty branch name. -/
theorem verifyBranchExistence_error_mapping_witness :
    verifyBranchExistence (fun _ => GetRefResult.notFound) sampleRepoUID sampleBranch
        = (some (UserError.badRequest (msgBranchNotFound sampleBranch sampleRepoUID)), 1) ∧
    verifyBranchExistence (fun _ => GetRefResult.ok) sampleRepoUID ""
        = (some (UserError.badRequest msgEmptyBranch), 0) :=
  ⟨(verifyBranchExistence_error_mapping (fun _ => GetRefResult.notFound)
      sampleRepoUID sampleBranch).2.1 (by decide) rfl,
    (verifyBranchExistence_error_mapping (fun _ => GetRefResult.ok)
      sampleRepoUID ("")).1 rfl⟩

/-- Claim C6: the edit-access check on a System-kind activity that passes the lookup and
ownership checks fails with the Validation error about system comments, for every caller
session — including the activity's original author. -/
theorem editAccess_system_always_validation (session : Session) (pr : PullReq)
    (commentID : Int) (comment : PullReqActivity)
    (hid : 0 < commentID)
    (hdel : comment.deleted = none)
    (hrepo : comment.repoID = pr.targetRepoID)
    (hpr : comment.pullReqID = pr.id)
    (hkind : comment.kind = PullReqActivityKind.system) :
    getCommentCheckEditAccess session pr commentID (some comment)
      = Except.error (UserError.badRequest msgSystemComment) := by
  simp [getCommentCheckEditAccess, show ¬ commentID ≤ 0 by omega, hdel, hrepo, hpr, hkind]

/-- Witness for C6: the author of the System activity (principal 7) tries to edit it and
fails with the Validation error. -/
theorem editAccess_system_always_validation_witness :
    getCommentCheckEditAccess sampleSession samplePR 14 (some sampleSystemActivity)
      = Except.error (UserError.badRequest msgSystemComment) :=
  editAccess_system_always_validation sampleSession samplePR 14 sampleSystemActivity
    (by decide) rfl rfl rfl rfl

/-- Claim C7: editing a comment whose author differs from the caller fails with the Validation
error about own comments, and the activity store is returned unchanged: no write occurs
on this error path. -/
theorem editComment_nonauthor_validation_no_write (session : Session) (pr : PullReq)
    (newPayload : String) (db : List PullReqActivity) (commentID : Int)
    (comment : PullReqActivity)
    (hfind : db.find? (fun a => a.id == commentID) = some comment)
    (hid : 0 < commentID)
    (hdel : comment.deleted = none)
    (hrepo : comment.repoID = pr.targetRepoID)
    (hpr : comment.pullReqID = pr.id)
    (hkind : comment.kind ≠ PullReqActivityKind.system)
    (hauthor : comment.createdBy ≠ session.principalID) :
    editComment session pr commentID newPayload db
      = (db, some (UserError.badRequest msgNotOwnComment)) := by
  unfold editComment
  rw [hfind]
  simp [getCommentCheckEditAccess, show ¬ commentID ≤ 0 by omega, hdel, hrepo, hpr,
    hkind, hauthor]

/-- Witness for C7: principal 8 tries to edit principal 7's comment; the store is
unchanged and the Validation error is returned. -/
theorem editComment_nonauthor_validation_no_write_witness :
    editComment sampleOtherSession samplePR 10 samplePayload sampleDB
      = (sampleDB, some (UserError.badRequest msgNotOwnComment)) :=
  editComment_nonauthor_validation_no_write sampleOtherSession samplePR samplePayload
    sampleDB 10 sampleComment (by decide) (by decide) rfl rfl rfl (by decide) (by decide)

/-- Claim C8: the not-found check of the edit-access helper comes before the System-kind and
authorship checks: whenever the looked-up comment is soft-deleted, or its RepoID differs
from the pull request's TargetRepoID, or its PullReqID differs from the pull request's ID,
the helper fails with the resource-not-found error, whatever the comment's Kind and
whoever the caller is. -/
theorem editAccess_not_found_precedence (session : Session) (pr : PullReq)
    (commentID : Int) (comment : PullReqActivity)
    (hid : 0 < commentID)
    (h : comment.deleted.isSome ∨ comment.repoID ≠ pr.targetRepoID
      ∨ comment.pullReqID ≠ pr.id) :
    getCommentCheckEditAccess session pr commentID (some comment)
      = Except.error UserError.resourceNotFound := by
  simp only [getCommentCheckEditAccess, if_neg (show ¬ commentID ≤ 0 by omega)]
  rw [if_pos h]

/-- Witness for C8: a soft-deleted System-kind activity targeted by a non-author caller
yields resource-not-found, showing the deletion check wins over the kind and author
checks. -/
theorem editAccess_not_found_precedence_witness :
    getCommentCheckEditAccess sampleOtherSession samplePR 10 (some sampleDeletedActivity)
      = Except.error UserError.resourceNotFound :=
  editAccess_not_found_precedence sampleOtherSession samplePR 10 sampleDeletedActivity
    (by decide) (Or.inl (by decide))

/-- The records retained by the duplicate-check query before sorting and pagination:
those matching the branch tuple whose state is Open. -/
def openMatchFilter (t s : Int) (sb tb : String) (db : List PullReq) : List PullReq :=
  db.filter (fun p => sameBranchTuple t s sb tb p && [PullReqState.opened].contains p.state)

/-- The duplicate-check query result before pagination: the matching Open records sorted
by Number ascending. -/
def sortedOpenMatches (t s : Int) (sb tb : String) (db : List PullReq) : List PullReq :=
  (openMatchFilter t s sb tb db).mergeSort (fun a b => decide (a.number ≤ b.number))

/-- The duplicate check evaluates its query as filter, sort by Number ascending, take 1. -/
lemma checkIfAlreadyExists_eq (db : List PullReq) (t s : Int) (tb sb : String) :
    checkIfAlreadyExists db t s tb sb =
      match (sortedOpenMatches t s sb tb db).take 1 with
      | [] => none
      | e :: _ => some (UserError.badRequestPayload msgPRAlreadyExists e.number) := rfl

/-- Membership in the duplicate-check filter means: in the store, matching the branch
tuple, and in the Open state. -/
lemma mem_openMatchFilter (db : List PullReq) (t s : Int) (sb tb : String) (q : PullReq) :
    q ∈ openMatchFilter t s sb tb db ↔
      q ∈ db ∧ sameBranchTuple t s sb tb q = true ∧ q.state = PullReqState.opened := by
  simp [openMatchFilter, List.mem_filter, and_assoc]

/-- The Number comparison used by the duplicate-check sort is transitive. -/
lemma leNumber_trans : ∀ a b c : PullReq, decide (a.number ≤ b.number) = true →
    decide (b.number ≤ c.number) = true → decide (a.number ≤ c.number) = true := by
  intro a b c hab hbc
  simp only [decide_eq_true_eq] at hab hbc ⊢
  omega

/-- The Number comparison used by the duplicate-check sort is total. -/
lemma leNumber_total : ∀ a b : PullReq,
    (decide (a.number ≤ b.number) || decide (b.number ≤ a.number)) = true := by
  intro a b
  simp only [Bool.or_eq_true, decide_eq_true_eq]
  omega

/-- When some Open record matches the branch tuple, the sorted query result starts with a
matching Open record whose Number is minimal among all matching Open records. -/
lemma sortedOpenMatches_head (db : List PullReq) (t s : Int) (sb tb : String)
    (p : PullReq) (hp : p ∈ db) (hmatch : sameBranchTuple t s sb tb p = true)
    (hstate : p.state = PullReqState.opened) :
    ∃ q rest, sortedOpenMatches t s sb tb db = q :: rest ∧ q ∈ db ∧
      sameBranchTuple t s sb tb q = true ∧ q.state = PullReqState.opened ∧
      ∀ r ∈ db, sameBranchTuple t s sb tb r = true → r.state = PullReqState.opened →
        q.number ≤ r.number := by
  have hperm : (sortedOpenMatches t s sb tb db).Perm (openMatchFilter t s sb tb db) :=
    List.mergeSort_perm (openMatchFilter t s sb tb db) (fun a b => decide (a.number ≤ b.number))
  have hpair : List.Pairwise (fun a b => decide (a.number ≤ b.number) = true)
      (sortedOpenMatches t s sb tb db) :=
    List.sorted_mergeSort leNumber_trans leNumber_total (openMatchFilter t s sb tb db)
  have hpmem : p ∈ sortedOpenMatches t s sb tb db :=
    hperm.mem_iff.mpr ((mem_openMatchFilter db t s sb tb p).mpr ⟨hp, hmatch, hstate⟩)
  rcases hsm : sortedOpenMatches t s sb tb db with _ | ⟨q, rest⟩
  · rw [hsm] at hpmem
    exact absurd hpmem (List.not_mem_nil p)
  · rw [hsm] at hperm hpair
    have hqfil : q ∈ openMatchFilter t s sb tb db :=
      hperm.mem_iff.mp (List.mem_cons_self q rest)
    obtain ⟨hqdb, hqmatch, hqstate⟩ := (mem_openMatchFilter db t s sb tb q).mp hqfil
    refine ⟨q, rest, rfl, hqdb, hqmatch, hqstate, ?_⟩
    intro r hr hrt hro
    have hrmem : r ∈ q :: rest :=
      hperm.mem_iff.mpr ((mem_openMatchFilter db t s sb tb r).mpr ⟨hr, hrt, hro⟩)
    rcases List.mem_cons.mp hrmem with heq | hmem
    · rw [heq]
    · exact of_decide_eq_true ((List.pairwise_cons.mp hpair).1 r hmem)

/-- When no Open record matches the branch tuple, the duplicate check passes. -/
lemma checkIfAlreadyExists_no_open (db : List PullReq) (t s : Int) (tb sb : String)
    (h : ∀ p ∈ db, sameBranchTuple t s sb tb p = true → p.state ≠ PullReqState.opened) :
    checkIfAlreadyExists db t s tb sb = none := by
  have hfil : openMatchFilter t s sb tb db = [] := by
    rw [openMatchFilter, List.filter_eq_nil_iff]
    intro a ha
    intro hcontr
    rw [Bool.and_eq_true] at hcontr
    obtain ⟨h1, h2⟩ := hcontr
    have : a.state = PullReqState.opened := by
      simpa using h2
    exact h a ha h1 this
  rw [checkIfAlreadyExists_eq, sortedOpenMatches, hfil, List.mergeSort_nil]
  rfl

/-- Claim C4: when an Open pull request matching the (target repo, source repo, source branch,
target branch) tuple exists in the store, `checkIfAlreadyExists` fails with the
user-facing error whose payload carries the Number of a matching Open request; the check
considers Open requests only, so it passes when every matching request is in another
state (for example Closed). -/
theorem checkIfAlreadyExists_conflict_open_only (db : List PullReq) (t s : Int)
    (tb sb : String) :
    ((∃ p ∈ db, sameBranchTuple t s sb tb p = true ∧ p.state = PullReqState.opened) →
      ∃ q ∈ db, sameBranchTuple t s sb tb q = true ∧ q.state = PullReqState.opened ∧
        checkIfAlreadyExists db t s tb sb
          = some (UserError.badRequestPayload msgPRAlreadyExists q.number)) ∧
    ((∀ p ∈ db, sameBranchTuple t s sb tb p = true → p.state ≠ PullReqState.opened) →
      checkIfAlreadyExists db t s tb sb = none) := by
  constructor
  · rintro ⟨p, hp, hmatch, hstate⟩
    obtain ⟨q, rest, hsm, hqdb, hqmatch, hqstate, hmin⟩ :=
      sortedOpenMatches_head db t s sb tb p hp hmatch hstate
    refine ⟨q, hqdb, hqmatch, hqstate, ?_⟩
    rw [checkIfAlreadyExists_eq, hsm]
    rfl
  · exact checkIfAlreadyExists_no_open db t s tb sb

/-- Claim C10: when several Open pull requests match the duplicate-check tuple, the Number in
the rejection payload is the smallest Number among the matching Open requests, because
the query keeps only Open requests, sorts by Number ascending, and takes the first
record. -/
theorem checkIfAlreadyExists_minimal_number (db : List PullReq) (t s : Int)
    (tb sb : String)
    (h : ∃ p ∈ db, sameBranchTuple t s sb tb p = true ∧ p.state = PullReqState.opened) :
    ∃ q ∈ db, sameBranchTuple t s sb tb q = true ∧ q.state = PullReqState.opened ∧
      checkIfAlreadyExists db t s tb sb
        = some (UserError.badRequestPayload msgPRAlreadyExists q.number) ∧
      ∀ r ∈ db, sameBranchTuple t s sb tb r = true → r.state = PullReqState.opened →
        q.number ≤ r.number := by
  obtain ⟨p, hp, hmatch, hstate⟩ := h
  obtain ⟨q, rest, hsm, hqdb, hqmatch, hqstate, hmin⟩ :=
    sortedOpenMatches_head db t s sb tb p hp hmatch hstate
  refine ⟨q, hqdb, hqmatch, hqstate, ?_, hmin⟩
  rw [checkIfAlreadyExists_eq, hsm]
  rfl

/-- The source branch of the sample pull requests. -/
def featureBranch : String := "feature"

/-- The target branch of the sample pull requests. -/
def mainBranch : String := "main"

/-- A second Open pull request on the same branch tuple, with a larger Number. -/
def samplePR2 : PullReq := { samplePR with id := 2, number := 2 }

/-- A Closed pull request on the same branch tuple. -/
def samplePRClosed : PullReq :=
  { samplePR with id := 3, number := 3, state := PullReqState.closed }

/-- A sample pull-request store with two matching Open requests, stored out of Number
order. -/
def samplePRdb : List PullReq := [samplePR2, samplePR]

/-- A sample pull-request store whose only matching request is Closed. -/
def sampleClosedDB : List PullReq := [samplePRClosed]

/-- Witness for C4: with a matching Open request in the store the duplicate check rejects
with that request's Number in the payload; with only a Closed matching request it
passes. -/
theorem checkIfAlreadyExists_conflict_open_only_witness :
    (∃ q ∈ samplePRdb, sameBranchTuple 3 2 featureBranch mainBranch q = true ∧
        q.state = PullReqState.opened ∧
        checkIfAlreadyExists samplePRdb 3 2 mainBranch featureBranch
          = some (UserError.badRequestPayload msgPRAlreadyExists q.number)) ∧
    checkIfAlreadyExists sampleClosedDB 3 2 mainBranch featureBranch = none :=
  ⟨(checkIfAlreadyExists_conflict_open_only samplePRdb 3 2 mainBranch featureBranch).1
      (by decide),
    (checkIfAlreadyExists_conflict_open_only sampleClosedDB 3 2 mainBranch featureBranch).2
      (by decide)⟩

/-- Witness for C10: with two matching Open requests of Numbers 2 and 1 (stored in that
order), the rejection payload carries a Number that is minimal among the matching Open
requests. -/
theorem checkIfAlreadyExists_minimal_number_witness :
    ∃ q ∈ samplePRdb, sameBranchTuple 3 2 featureBranch mainBranch q = true ∧
      q.state = PullReqState.opened ∧
      checkIfAlreadyExists samplePRdb 3 2 mainBranch featureBranch
        = some (UserError.badRequestPayload msgPRAlreadyExists q.number) ∧
      ∀ r ∈ samplePRdb, sameBranchTuple 3 2 featureBranch mainBranch r = true →
        r.state = PullReqState.opened → q.number ≤ r.number :=
  checkIfAlreadyExists_minimal_number samplePRdb 3 2 mainBranch featureBranch (by decide)
